import Mathlib

/-!
Verification of the auto-lg-flow provisioning scripts.

The repository is a set of Python automation scripts:
  * `lg/auto_key.py` (the credential key Issuer),
  * `1password/auto_1password.py` (the secret vault Publisher),
  * `apisix/auto_as_add.py` (the gateway Registrar),
  * `jira/auto_jira_comment.py` (the ticket comment script),
  * `main.py` (the orchestrator).

Each script is a linear sequence of HTTP / CLI calls.  We embed the
decision logic of each script as pure Lean functions over explicit
representations of the external state (JSON route configuration, the list
of workspaces and keys, subprocess results), and record the outgoing
requests each run issues as an explicit trace.  Transport-level failures
(HTTP errors, subprocess crashes) abort every script with exit code 1 in
the source; the embeddings below model runs in which the transport
succeeds, plus the explicit failure inputs the claims are about
(non-zero child exit codes, HTTP status codes, unparsable output).
-/

set_option autoImplicit false

/-! ## Python string primitives

`str.strip` and `str.split('\n')` as used by the scripts, embedded on
`List Char`.  `pyIsSpace` covers the ASCII whitespace characters stripped
by Python (the scripts only ever meet ASCII output). -/

def pyIsSpace (c : Char) : Bool :=
  c == ' ' || c == '\t' || c == '\n' || c == '\r' || c == '\x0b' || c == '\x0c'

/-- Python `s.strip()`: drop leading and trailing whitespace. -/
def pyStrip (s : String) : String :=
  String.mk (((s.data.dropWhile pyIsSpace).reverse.dropWhile pyIsSpace).reverse)

/-- Python `s.split(sep)` for a one-character separator.  The result is
never empty: splitting the empty string yields `[""]`. -/
def pySplitChar (sep : Char) : List Char → List (List Char)
  | [] => [[]]
  | c :: cs =>
    match pySplitChar sep cs with
    | [] => [[]]
    | w :: ws => if c == sep then [] :: w :: ws else (c :: w) :: ws

/-! ## JSON values and Python dict operations

The gateway route configuration is JSON; the Registrar reads and rewrites
it with Python dict operations.  `dictGet` is `d.get(k)` (first match),
`dictSet` is `d[k] = v` (replace in place, preserving insertion order,
else append). -/

inductive Json where
  | null : Json
  | bool : Bool → Json
  | num : Int → Json
  | str : String → Json
  | arr : List Json → Json
  | obj : List (String × Json) → Json

def dictGet : List (String × Json) → String → Option Json
  | [], _ => none
  | (k, v) :: rest, key => if k = key then some v else dictGet rest key

def dictSet : List (String × Json) → String → Json → List (String × Json)
  | [], key, v => [(key, v)]
  | (k, w) :: rest, key, v =>
    if k = key then (key, v) :: rest else (k, w) :: dictSet rest key v

/-- View a JSON value as an object.  The plugin blocks the Registrar
manipulates are JSON objects; on any other value the Python source would
raise (`AttributeError`), which does not occur on gateway data. -/
def Json.asObj : Json → List (String × Json)
  | .obj kvs => kvs
  | _ => []

/-- View a JSON value as an array (the `whitelist` field). -/
def Json.asArr : Json → List Json
  | .arr xs => xs
  | _ => []

/-- Python `x == u` for a string `u` against a JSON value `x` (used by
`username_to_add in old_whitelist`): only a JSON string can compare
equal to a Python string. -/
def jeqStr (u : String) : Json → Bool
  | .str s => s == u
  | _ => false

/-! ## Gateway Registrar (`apisix/auto_as_add.py`) -/

def ROUTE_ID : String := "00000000000000000020"

/-- Requests the Registrar issues against the gateway admin API. -/
inductive ApisixReq where
  | putConsumer (username : String) (keyAuthKey : String)
  | getRoute (routeId : String)
  | patchRoute (routeId : String) (plugins : List (String × Json))

def isWriteReq : ApisixReq → Bool
  | .putConsumer _ _ => true
  | .getRoute _ => false
  | .patchRoute _ _ => true

def isRoutePatch : ApisixReq → Bool
  | .patchRoute _ _ => true
  | _ => false

/-- `create_consumer_and_key_auth`: a PUT upserting the consumer, whose
key-auth key is the username itself. -/
def create_consumer_and_key_auth (username : String) : ApisixReq :=
  ApisixReq.putConsumer username username

/-- The whitelist the Registrar reads out of a fetched plugin block:
`plugins.get('consumer-restriction', {}).get('whitelist', [])`. -/
def routeWhitelist (existing_plugins : List (String × Json)) : List Json :=
  ((dictGet (((dictGet existing_plugins "consumer-restriction").getD
      (Json.obj [])).asObj) "whitelist").getD (Json.arr [])).asArr

/-- `update_route_whitelist`, acting on the fetched plugin block
(`route_config['value']['plugins']`).  Returns `none` when the username
is already whitelisted (the update is skipped, no PATCH is sent), and
`some body` when a PATCH with plugin block `body` is sent.

In the source, `consumer_restriction` aliases the entry of
`existing_plugins` when the key is present (so the in-place
`consumer_restriction['whitelist'] = new_whitelist` updates the block
that is PATCHed), but is a fresh `{}` when the key is absent (so the
assignment is lost and the PATCH body is the fetched block unchanged).
The `isSome` test below renders that aliasing explicitly. -/
def update_route_whitelist (existing_plugins : List (String × Json))
    (username_to_add : String) : Option (List (String × Json)) :=
  let consumer_restriction :=
    ((dictGet existing_plugins "consumer-restriction").getD (Json.obj [])).asObj
  let old_whitelist :=
    ((dictGet consumer_restriction "whitelist").getD (Json.arr [])).asArr
  if old_whitelist.any (jeqStr username_to_add) then
    none
  else
    let new_whitelist := old_whitelist ++ [Json.str username_to_add]
    let cr2 := dictSet consumer_restriction "whitelist" (Json.arr new_whitelist)
    if (dictGet existing_plugins "consumer-restriction").isSome then
      some (dictSet existing_plugins "consumer-restriction" (Json.obj cr2))
    else
      some existing_plugins

/-- One Registrar run (`main` of `apisix/auto_as_add.py`) on a fetched
plugin block, with all HTTP requests succeeding: the exit code and the
trace of requests issued. -/
def registrarRun (fetched_plugins : List (String × Json)) (username : String) :
    Nat × List ApisixReq :=
  match update_route_whitelist fetched_plugins username with
  | none =>
    (0, [create_consumer_and_key_auth username, ApisixReq.getRoute ROUTE_ID])
  | some patched =>
    (0, [create_consumer_and_key_auth username, ApisixReq.getRoute ROUTE_ID,
         ApisixReq.patchRoute ROUTE_ID patched])

/-! ## Credential key Issuer (`lg/auto_key.py`) -/

structure Workspace where
  display_name : String
  id : String

structure ApiKeyRec where
  description : String
  id : String

structure Role where
  name : String
  access_scope : Option String
  id : String

/-- The external LangSmith state the Issuer's API calls observe, plus the
key string the creation endpoint mints. -/
structure LgState where
  workspaces : List Workspace
  keys : List ApiKeyRec
  roles : List Role
  mintedKey : String

inductive LgReq where
  | listWorkspaces
  | listKeys
  | listRoles
  | createKey (description : String) (workspaceId : String) (roleId : String)

def isCreateKeyReq : LgReq → Bool
  | .createKey _ _ _ => true
  | _ => false

/-- `workspace_exists`: linear search of the workspace list by display
name, returning `(exists, workspace_id)` for the first match. -/
def workspace_exists (st : LgState) (name : String) : Bool × Option String :=
  match st.workspaces.find? (fun w => w.display_name == name) with
  | some w => (true, some w.id)
  | none => (false, none)

/-- `key_exists`: linear search of the key list by description. -/
def key_exists (st : LgState) (description : String) : Bool × Option String :=
  match st.keys.find? (fun k => k.description == description) with
  | some k => (true, some k.id)
  | none => (false, none)

/-- `create_api_key`: fetch roles, pick the workspace-scoped
`WORKSPACE_USER` role, then POST the key creation.  `none` models the
`ValueError` raised when the role is absent (caught in `main`, which
exits 1). -/
def create_api_key (st : LgState) (workspace_id description : String) :
    Option String × List LgReq :=
  match st.roles.find? (fun r =>
      r.name == "WORKSPACE_USER" && r.access_scope == some "workspace") with
  | none => (none, [LgReq.listRoles])
  | some ws_role =>
    (some st.mintedKey,
     [LgReq.listRoles, LgReq.createKey description workspace_id ws_role.id])

/-- `auto_create`: the Issuer workflow.  `none` models a fatal abort
(`sys.exit(1)`, or the exception caught in `main` which exits 1); the
second component is the trace of API requests issued.  When the
workspace exists, `workspace_exists` returned `some id`, so the `getD`
default is never read. -/
def auto_create (st : LgState) (description workspace_name : String) :
    Option String × List LgReq :=
  let ws := workspace_exists st workspace_name
  if ws.1 = false then
    (none, [LgReq.listWorkspaces])
  else
    let ke := key_exists st description
    if ke.1 = true then
      (none, [LgReq.listWorkspaces, LgReq.listKeys])
    else
      let ck := create_api_key st (ws.2.getD "") description
      (ck.1, [LgReq.listWorkspaces, LgReq.listKeys] ++ ck.2)

/-! ## Secret vault Publisher (`1password/auto_1password.py`)

The Publisher creates a vault item with the `op` CLI, extracts the item
id from the command's text output with the regular expression
`^ID:\s*([a-zA-Z0-9]+)` (MULTILINE), and shares the item.  The regex is
embedded directly: `matchID` is one anchored match attempt, `scanID`
scans the positions where `^` can match (start of text, and after each
newline), returning the first match — exactly `re.search`'s leftmost
match, since `\s` and `[a-zA-Z0-9]` are disjoint so the greedy `\s*`
never needs to backtrack. -/

def pyIsAlnum (c : Char) : Bool :=
  c.isAlpha || c.isDigit

/-- One attempt to match `ID:\s*([a-zA-Z0-9]+)` at the head of `cs`;
returns the capture group. -/
def matchID (cs : List Char) : Option (List Char) :=
  match cs with
  | c1 :: c2 :: c3 :: rest =>
    if c1 = 'I' ∧ c2 = 'D' ∧ c3 = ':' then
      let idc := (rest.dropWhile pyIsSpace).takeWhile pyIsAlnum
      if idc = [] then none else some idc
    else none
  | _ => none

/-- Scan for the leftmost match of `^ID:\s*([a-zA-Z0-9]+)` under
`re.MULTILINE`; the flag records whether the current position is a line
start. -/
def scanID : Bool → List Char → Option (List Char)
  | _, [] => none
  | atStart, c :: cs =>
    if atStart then
      match matchID (c :: cs) with
      | some idc => some idc
      | none => scanID (c == '\n') cs
    else scanID (c == '\n') cs

/-- `re.search(r'^ID:\s*([a-zA-Z0-9]+)', s, re.MULTILINE)`, capture
group only. -/
def findID (s : String) : Option (List Char) :=
  scanID true s.data

/-- The `op` CLI invocations the Publisher issues. -/
inductive OpCmd where
  | createItem (vault title category password : String)
  | shareItem (itemId email expiresIn : String)

def isShareCmd : OpCmd → Bool
  | .shareItem _ _ _ => true
  | _ => false

/-- `create_and_share_item`, with both `op` invocations succeeding at the
transport level; `createStdout` and `shareStdout` are their raw standard
outputs (`run_op_command` returns them stripped).  `none` models the
`ValueError` raised when no item id can be extracted (caught in `main`,
which exits 1, before the share command is ever built). -/
def create_and_share_item (branch_name lg_key share_to : String)
    (createStdout shareStdout : String) : Option String × List OpCmd :=
  let createCmd := OpCmd.createItem "LangGraphKeys" branch_name "API Credential" lg_key
  let create_output := pyStrip createStdout
  match findID create_output with
  | none => (none, [createCmd])
  | some itemId =>
    (some (pyStrip shareStdout),
     [createCmd, OpCmd.shareItem (String.mk itemId) share_to "7d"])

/-- Line-start flag after scanning `pre`, starting from flag `a0`: true
iff the position right after `pre` is a MULTILINE `^` position. -/
def flagAfter (a0 : Bool) : List Char → Bool
  | [] => a0
  | c :: cs => flagAfter (c == '\n') cs

/-- Specification-level statement that the identifier `idc` occurs in
`cs` as an `ID:` line: at a line start, the literal `ID:` followed by
whitespace, then `idc` (non-empty, alphanumeric). -/
def idLineAt (idc cs : List Char) : Prop :=
  ∃ pre ws rest,
    cs = pre ++ ('I' :: 'D' :: ':' :: (ws ++ idc ++ rest)) ∧
    flagAfter true pre = true ∧
    ws.all pyIsSpace = true ∧
    idc ≠ [] ∧
    idc.all pyIsAlnum = true

/-- As `idLineAt`, and moreover `idc` is the full identifier at that
position: what follows it is not alphanumeric. -/
def idLineAtFull (idc cs : List Char) : Prop :=
  ∃ pre ws rest,
    cs = pre ++ ('I' :: 'D' :: ':' :: (ws ++ idc ++ rest)) ∧
    flagAfter true pre = true ∧
    ws.all pyIsSpace = true ∧
    idc ≠ [] ∧
    idc.all pyIsAlnum = true ∧
    (∀ c, rest.head? = some c → pyIsAlnum c = false)

/-! ## Orchestrator (`main.py`)

`main.py` runs `op whoami`, checks three environment variables, then
shells out to the Issuer, the Publisher and the Registrar in order,
threading the last stdout line of each step into the next.  Any
`run_command` failure (non-zero child exit) exits 1 immediately.  The
`World` packages everything the run observes from outside. -/

structure StepRes where
  exitCode : Nat
  stdout : String

structure World where
  opWhoamiExit : Nat
  envApisixKey : Option String
  envLangsmithKey : Option String
  envOrgId : Option String
  issuer : StepRes
  publisher : StepRes
  registrarExit : Nat

/-- Python truthiness of `os.environ.get(var)`: set and non-empty. -/
def envTruthy : Option String → Bool
  | none => false
  | some s => s != ""

/-- `check_prerequisites` as a predicate: `op whoami` succeeded and the
three required environment variables are truthy.  In the source each
failing check exits 1 before any provisioning step runs. -/
def check_prerequisites (w : World) : Bool :=
  (w.opWhoamiExit == 0) && envTruthy w.envApisixKey &&
    envTruthy w.envLangsmithKey && envTruthy w.envOrgId

/-- The three provisioning steps, with the arguments they are invoked
with. -/
inductive Step where
  | issuer (description : String)
  | publisher (title key email : String)
  | registrar (username : String)

/-- `result.stdout.strip().split('\n')`. -/
def stdoutLines (s : String) : List (List Char) :=
  pySplitChar '\n' (pyStrip s).data

/-- `output_lines[-1].strip()`: the payload the orchestrator captures
from a step. -/
def lastStdoutLine (s : String) : String :=
  pyStrip (String.mk ((stdoutLines s).getLastD []))

/-- `main` of `main.py`: exit code and the trace of steps invoked.
Mirrors the source line by line: prerequisite gate, Issuer, the
`if output_lines_lg:` emptiness test, Publisher, the same test,
Registrar. -/
def mainRun (w : World) (email branch_name : String) : Nat × List Step :=
  if !check_prerequisites w then (1, [])
  else
    if w.issuer.exitCode != 0 then (1, [Step.issuer branch_name])
    else
      let output_lines_lg := stdoutLines w.issuer.stdout
      if output_lines_lg = [] then (1, [Step.issuer branch_name])
      else
        let lg_key := pyStrip (String.mk (output_lines_lg.getLastD []))
        if w.publisher.exitCode != 0 then
          (1, [Step.issuer branch_name, Step.publisher branch_name lg_key email])
        else
          let output_lines_1p := stdoutLines w.publisher.stdout
          if output_lines_1p = [] then
            (1, [Step.issuer branch_name, Step.publisher branch_name lg_key email])
          else
            if w.registrarExit != 0 then
              (1, [Step.issuer branch_name,
                   Step.publisher branch_name lg_key email,
                   Step.registrar branch_name])
            else
              (0, [Step.issuer branch_name,
                   Step.publisher branch_name lg_key email,
                   Step.registrar branch_name])

/-! ## Ticket comment script (`jira/auto_jira_comment.py`) -/

/-- Outcome of the comment POST: an HTTP status code, or a
`requests.exceptions.RequestException`. -/
inductive JiraOutcome where
  | status (code : Nat)
  | requestError

/-- `add_comment_to_jira_ticket` followed by process exit, as
`(exit code, an ERROR diagnostic was printed)`.  With the token set and
an HTTP response, the function prints SUCCESS on 201 and an
`ERROR: Failed to add comment` diagnostic otherwise, but in both cases
falls through to a normal return, so the process exits 0; only a raised
`RequestException` (or the missing token) reaches `sys.exit(1)`. -/
def add_comment_to_jira_ticket (tokenSet : Bool) (o : JiraOutcome) : Nat × Bool :=
  if !tokenSet then (1, true)
  else
    match o with
    | .status code => if code == 201 then (0, false) else (0, true)
    | .requestError => (1, true)

/-! ## Example inputs used by witnesses -/

/-- A route plugin block with a second plugin and extra
consumer-restriction fields, whitelist `["bob"]`. -/
def crBlockEx : List (String × Json) :=
  [("rejected_code", Json.num 403), ("whitelist", Json.arr [Json.str "bob"])]

def pluginsEx : List (String × Json) :=
  [("proxy-rewrite", Json.obj [("uri", Json.str "/v1")]),
   ("consumer-restriction", Json.obj crBlockEx)]

/-- A route plugin block whose whitelist already contains `"alice"`. -/
def pluginsAliceEx : List (String × Json) :=
  [("consumer-restriction", Json.obj [("whitelist", Json.arr [Json.str "alice"])])]

/-- A route plugin block with no consumer-restriction entry. -/
def pluginsNoCrEx : List (String × Json) :=
  [("proxy-rewrite", Json.obj [("uri", Json.str "/v1")])]

/-- A LangSmith state with one workspace, one key and the required
role. -/
def lgStateEx : LgState :=
  { workspaces := [{ display_name := "nsagent-users", id := "ws-1" }],
    keys := [{ description := "feature-42", id := "key-1" }],
    roles := [{ name := "WORKSPACE_USER", access_scope := some "workspace", id := "role-1" }],
    mintedKey := "lsv2-secret" }

/-- A world passing the prerequisite gate in which every step
succeeds. -/
def worldOkEx : World :=
  { opWhoamiExit := 0,
    envApisixKey := some "apisix-key",
    envLangsmithKey := some "ls-key",
    envOrgId := some "org-1",
    issuer := { exitCode := 0, stdout := "progress\nlsv2-secret\n" },
    publisher := { exitCode := 0, stdout := "https://share.example\n" },
    registrarExit := 0 }

/-- A world whose prerequisite gate fails (one environment variable is
empty). -/
def worldBadEnvEx : World :=
  { worldOkEx with envOrgId := some "" }

/-- A world in which the Issuer step fails. -/
def worldIssuerFailEx : World :=
  { worldOkEx with issuer := { exitCode := 2, stdout := "" } }

/-- A world in which the Issuer succeeds but prints only whitespace. -/
def worldBlankIssuerEx : World :=
  { worldOkEx with issuer := { exitCode := 0, stdout := " \n " } }

/-! ## Dictionary lemmas -/

theorem dictGet_dictSet_same (d : List (String × Json)) (k : String) (v : Json) :
    dictGet (dictSet d k v) k = some v := by
  induction d with
  | nil => simp [dictGet, dictSet]
  | cons p rest ih =>
    obtain ⟨k', v'⟩ := p
    by_cases h : k' = k <;> simp [dictGet, dictSet, h, ih]

theorem dictGet_dictSet_ne (d : List (String × Json)) (k k' : String) (v : Json)
    (h : k' ≠ k) : dictGet (dictSet d k v) k' = dictGet d k' := by
  have h2 : ¬(k = k') := fun hh => h hh.symm
  induction d with
  | nil => simp [dictGet, dictSet, h2]
  | cons p rest ih =>
    obtain ⟨k0, v0⟩ := p
    by_cases h0 : k0 = k
    · subst h0
      simp [dictGet, dictSet, h2]
    · simp [dictGet, dictSet, h0, ih]

/-! ## Theorems for the claims -/

/-- Claim C1: on a route whose consumer-restriction whitelist is
`["bob"]`, the Registrar's whitelist update for `"alice"` issues exactly
one route write, whose plugin block is the fetched block with `"alice"`
appended to the whitelist; every other plugin entry, and every other
consumer-restriction field, is unchanged. -/
theorem registrar_whitelist_append_preserves_plugins
    (plugins cr : List (String × Json))
    (hcr : dictGet plugins "consumer-restriction" = some (Json.obj cr))
    (hwl : dictGet cr "whitelist" = some (Json.arr [Json.str "bob"])) :
    ∃ patched,
      update_route_whitelist plugins "alice" = some patched ∧
      (registrarRun plugins "alice").2.filter isRoutePatch =
        [ApisixReq.patchRoute ROUTE_ID patched] ∧
      dictGet patched "consumer-restriction" =
        some (Json.obj (dictSet cr "whitelist"
          (Json.arr [Json.str "bob", Json.str "alice"]))) ∧
      dictGet (dictSet cr "whitelist" (Json.arr [Json.str "bob", Json.str "alice"]))
        "whitelist" = some (Json.arr [Json.str "bob", Json.str "alice"]) ∧
      (∀ k, k ≠ "consumer-restriction" → dictGet patched k = dictGet plugins k) ∧
      (∀ k, k ≠ "whitelist" →
        dictGet (dictSet cr "whitelist" (Json.arr [Json.str "bob", Json.str "alice"])) k =
          dictGet cr k) := by
  have hupd : update_route_whitelist plugins "alice" =
      some (dictSet plugins "consumer-restriction"
        (Json.obj (dictSet cr "whitelist" (Json.arr [Json.str "bob", Json.str "alice"])))) := by
    simp [update_route_whitelist, hcr, hwl, Json.asObj, Json.asArr, jeqStr]
  refine ⟨_, hupd, ?_, ?_, ?_, ?_, ?_⟩
  · simp [registrarRun, hupd, create_consumer_and_key_auth, isRoutePatch]
  · exact dictGet_dictSet_same ..
  · exact dictGet_dictSet_same ..
  · intro k hk
    exact dictGet_dictSet_ne _ _ _ _ hk
  · intro k hk
    exact dictGet_dictSet_ne _ _ _ _ hk

/-- Witness for C1 at a concrete two-plugin route block. -/
theorem registrar_whitelist_append_witness :
    dictGet pluginsEx "consumer-restriction" = some (Json.obj crBlockEx) ∧
    ∃ patched,
      update_route_whitelist pluginsEx "alice" = some patched ∧
      (registrarRun pluginsEx "alice").2.filter isRoutePatch =
        [ApisixReq.patchRoute ROUTE_ID patched] ∧
      dictGet patched "consumer-restriction" =
        some (Json.obj (dictSet crBlockEx "whitelist"
          (Json.arr [Json.str "bob", Json.str "alice"]))) ∧
      dictGet (dictSet crBlockEx "whitelist" (Json.arr [Json.str "bob", Json.str "alice"]))
        "whitelist" = some (Json.arr [Json.str "bob", Json.str "alice"]) ∧
      (∀ k, k ≠ "consumer-restriction" → dictGet patched k = dictGet pluginsEx k) ∧
      (∀ k, k ≠ "whitelist" →
        dictGet (dictSet crBlockEx "whitelist" (Json.arr [Json.str "bob", Json.str "alice"])) k =
          dictGet crBlockEx k) :=
  ⟨rfl, registrar_whitelist_append_preserves_plugins pluginsEx crBlockEx rfl rfl⟩

/-- Claim C9: when the fetched plugin block has no consumer-restriction
entry, the in-place whitelist assignment lands on a fresh dictionary, so
the PATCH body is the fetched block unchanged, and the run still exits
0. -/
theorem registrar_missing_restriction_patches_unchanged
    (plugins : List (String × Json)) (u : String)
    (h : dictGet plugins "consumer-restriction" = none) :
    update_route_whitelist plugins u = some plugins ∧
    registrarRun plugins u =
      (0, [ApisixReq.putConsumer u u, ApisixReq.getRoute ROUTE_ID,
           ApisixReq.patchRoute ROUTE_ID plugins]) := by
  have hupd : update_route_whitelist plugins u = some plugins := by
    simp [update_route_whitelist, h, Json.asObj, Json.asArr, dictGet]
  exact ⟨hupd, by simp [registrarRun, hupd, create_consumer_and_key_auth]⟩

/-- Witness for C9 at a block holding only a proxy-rewrite plugin. -/
theorem registrar_missing_restriction_witness :
    dictGet pluginsNoCrEx "consumer-restriction" = none ∧
    update_route_whitelist pluginsNoCrEx "alice" = some pluginsNoCrEx ∧
    registrarRun pluginsNoCrEx "alice" =
      (0, [ApisixReq.putConsumer "alice" "alice", ApisixReq.getRoute ROUTE_ID,
           ApisixReq.patchRoute ROUTE_ID pluginsNoCrEx]) :=
  ⟨rfl, registrar_missing_restriction_patches_unchanged pluginsNoCrEx "alice" rfl⟩

/-- Claim C6 counterexample: on a route whose whitelist already contains
`"alice"`, the Registrar run exits 0 and skips the route PATCH, but it
still issues a write request — the PUT upserting the consumer — so the
claim that no write request is issued fails. -/
theorem registrar_whitelisted_run_still_writes :
    (routeWhitelist pluginsAliceEx).any (jeqStr "alice") = true ∧
    ((registrarRun pluginsAliceEx "alice").2.any isWriteReq) = true := by
  constructor <;> rfl

/-- Claim C6 (amended): on a route whose whitelist already contains the
username, the Registrar run issues no route write (no PATCH) and exits
0; the consumer-upsert PUT and the route GET are still issued. -/
theorem registrar_whitelisted_skips_route_patch
    (plugins : List (String × Json)) (u : String)
    (h : (routeWhitelist plugins).any (jeqStr u) = true) :
    registrarRun plugins u =
      (0, [ApisixReq.putConsumer u u, ApisixReq.getRoute ROUTE_ID]) := by
  have hupd : update_route_whitelist plugins u = none := by
    simp only [update_route_whitelist]
    simp only [routeWhitelist] at h
    simp [h]
  simp [registrarRun, hupd, create_consumer_and_key_auth]

/-- Witness for the amended C6 on the concrete `["alice"]` route. -/
theorem registrar_whitelisted_skips_route_patch_witness :
    registrarRun pluginsAliceEx "alice" =
      (0, [ApisixReq.putConsumer "alice" "alice", ApisixReq.getRoute ROUTE_ID]) :=
  registrar_whitelisted_skips_route_patch pluginsAliceEx "alice" rfl

/-- Claim C4: when the requested workspace display name is absent from
the workspace list, `auto_create` aborts fatally without issuing the
key-creation POST. -/
theorem issuer_aborts_when_workspace_missing
    (st : LgState) (description name : String)
    (h : ∀ w ∈ st.workspaces, w.display_name ≠ name) :
    (auto_create st description name).1 = none ∧
    ∀ r ∈ (auto_create st description name).2, isCreateKeyReq r = false := by
  have hfind : st.workspaces.find? (fun w => w.display_name == name) = none := by
    rw [List.find?_eq_none]
    intro w hw
    simp [h w hw]
  have hws : workspace_exists st name = (false, none) := by
    simp [workspace_exists, hfind]
  constructor
  · simp [auto_create, hws]
  · intro r hr
    simp [auto_create, hws] at hr
    simp [hr, isCreateKeyReq]

/-- Witness for C4: a state whose only workspace is `nsagent-users`,
queried for a missing workspace. -/
theorem issuer_aborts_when_workspace_missing_witness :
    (auto_create lgStateEx "feature-99" "missing-ws").1 = none ∧
    ∀ r ∈ (auto_create lgStateEx "feature-99" "missing-ws").2,
      isCreateKeyReq r = false :=
  issuer_aborts_when_workspace_missing lgStateEx "feature-99" "missing-ws"
    (by intro w hw; simp [lgStateEx] at hw; simp [hw])

/-- Claim C5: when some existing key already carries the requested
description, `auto_create` aborts fatally without issuing the
key-creation POST (whether or not the workspace lookup succeeded
first). -/
theorem issuer_aborts_on_duplicate_description
    (st : LgState) (description name : String)
    (h : ∃ k ∈ st.keys, k.description = description) :
    (auto_create st description name).1 = none ∧
    ∀ r ∈ (auto_create st description name).2, isCreateKeyReq r = false := by
  obtain ⟨k, hk, hdesc⟩ := h
  rcases hws : workspace_exists st name with ⟨b, oid⟩
  cases b
  · constructor
    · simp [auto_create, hws]
    · intro r hr
      simp [auto_create, hws] at hr
      simp [hr, isCreateKeyReq]
  · have hke : (key_exists st description).1 = true := by
      have : (st.keys.find? (fun k => k.description == description)).isSome := by
        rw [List.find?_isSome]
        exact ⟨k, hk, by simp [hdesc]⟩
      rcases hf : st.keys.find? (fun k => k.description == description) with _ | k'
      · rw [hf] at this; simp at this
      · simp [key_exists, hf]
    constructor
    · simp [auto_create, hws, hke]
    · intro r hr
      simp [auto_create, hws, hke] at hr
      rcases hr with hr | hr <;> simp [hr, isCreateKeyReq]

/-- Witness for C5: the state already holds a key described
`feature-42`. -/
theorem issuer_aborts_on_duplicate_description_witness :
    (auto_create lgStateEx "feature-42" "nsagent-users").1 = none ∧
    ∀ r ∈ (auto_create lgStateEx "feature-42" "nsagent-users").2,
      isCreateKeyReq r = false :=
  issuer_aborts_on_duplicate_description lgStateEx "feature-42" "nsagent-users"
    ⟨{ description := "feature-42", id := "key-1" }, by simp [lgStateEx], rfl⟩

/-- Claim C3 (code behavior at the failing input): with the API token
set, a comment POST answered with HTTP 400 makes the Jira script print a
failure diagnostic yet exit 0 — the non-201 branch never reaches
`sys.exit(1)`. -/
theorem jira_comment_failure_exits_zero :
    add_comment_to_jira_ticket true (JiraOutcome.status 400) = (0, true) := rfl

/-! ## Orchestrator lemmas -/

theorem pySplitChar_ne_nil (sep : Char) (l : List Char) :
    pySplitChar sep l ≠ [] := by
  induction l with
  | nil => simp [pySplitChar]
  | cons c cs ih =>
    cases h : pySplitChar sep cs with
    | nil => simp [pySplitChar, h]
    | cons w ws =>
      simp only [pySplitChar, h]
      by_cases hc : (c == sep) = true <;> simp [hc]

theorem stdoutLines_ne_nil (s : String) : stdoutLines s ≠ [] :=
  pySplitChar_ne_nil '\n' (pyStrip s).data

/-- Claim C8: if the prerequisite gate fails (the vault CLI is not
signed in, or one of the three required environment variables is unset
or empty), the orchestrator exits 1 without invoking any provisioning
step. -/
theorem orchestrator_prereq_gate (w : World) (email branch_name : String)
    (h : check_prerequisites w = false) :
    mainRun w email branch_name = (1, []) := by
  simp [mainRun, h]

/-- Witness for C8: the gate fails on an empty `LANGSMITH_ORG_ID`. -/
theorem orchestrator_prereq_gate_witness :
    mainRun worldBadEnvEx "a@x.com" "feature-42" = (1, []) :=
  orchestrator_prereq_gate worldBadEnvEx "a@x.com" "feature-42" rfl

/-- Claim C2: past the gate, the orchestrator invokes the Issuer with
the branch name as description; when every step succeeds it then invokes
the Publisher with the branch name, the last stdout line of the Issuer
as the key, and the email, and then the Registrar with the branch name;
when the Issuer exits non-zero the run exits 1 with neither the
Publisher nor the Registrar invoked. -/
theorem orchestrator_step_sequence (w : World) (email branch_name : String)
    (hg : check_prerequisites w = true) :
    (w.issuer.exitCode ≠ 0 →
      mainRun w email branch_name = (1, [Step.issuer branch_name])) ∧
    (w.issuer.exitCode = 0 → w.publisher.exitCode = 0 → w.registrarExit = 0 →
      mainRun w email branch_name =
        (0, [Step.issuer branch_name,
             Step.publisher branch_name (lastStdoutLine w.issuer.stdout) email,
             Step.registrar branch_name])) := by
  constructor
  · intro hi
    simp [mainRun, hg, hi]
  · intro h0 h1 h2
    simp [mainRun, hg, h0, h1, h2, stdoutLines_ne_nil, lastStdoutLine]

/-- Witness for C2 at a concrete all-success world: the captured key is
the last stdout line of the Issuer. -/
theorem orchestrator_step_sequence_witness :
    mainRun worldOkEx "a@x.com" "feature-42" =
      (0, [Step.issuer "feature-42",
           Step.publisher "feature-42" (lastStdoutLine worldOkEx.issuer.stdout) "a@x.com",
           Step.registrar "feature-42"]) :=
  (orchestrator_step_sequence worldOkEx "a@x.com" "feature-42" rfl).2 rfl rfl rfl

/-- Claim C10: stripping and splitting any captured stdout yields a
non-empty list, so the orchestrator's `Failed to acquire` abort branches
are unreachable; in particular, past the gate, an Issuer that exits 0
printing only whitespace makes the orchestrator proceed and invoke the
Publisher with the empty string as the key instead of aborting. -/
theorem orchestrator_split_nonempty_empty_key
    (s : String) (w : World) (email branch_name : String)
    (hg : check_prerequisites w = true) (hi : w.issuer.exitCode = 0)
    (hblank : pyStrip w.issuer.stdout = "") :
    stdoutLines s ≠ [] ∧
    Step.publisher branch_name "" email ∈ (mainRun w email branch_name).2 := by
  refine ⟨stdoutLines_ne_nil s, ?_⟩
  have hlines : stdoutLines w.issuer.stdout = [[]] := by
    rw [stdoutLines, hblank]; rfl
  have hkey : pyStrip "" = "" := rfl
  simp only [mainRun, hg, hi, hlines]
  norm_num
  split_ifs <;> simp [hkey]

/-! ## Publisher regex lemmas

Correctness of `scanID`/`matchID` against the specification-level
`idLineAt`: the scan succeeds exactly when an `ID:` line is present, and
what it returns is an identifier genuinely occurring on such a line. -/

theorem dropWhile_all_append (p : Char → Bool) (ws l : List Char)
    (h : ws.all p = true) : (ws ++ l).dropWhile p = l.dropWhile p := by
  induction ws with
  | nil => rfl
  | cons c cs ih =>
    rw [List.all_cons, Bool.and_eq_true] at h
    simp [List.dropWhile, h.1, ih h.2]

theorem space_not_alnum (c : Char) (h : pyIsSpace c = true) :
    pyIsAlnum c = false := by
  simp only [pyIsSpace, Bool.or_eq_true, beq_iff_eq] at h
  rcases h with ((((h | h) | h) | h) | h) | h <;> subst h <;> decide

theorem alnum_not_space (c : Char) (h : pyIsAlnum c = true) :
    pyIsSpace c = false := by
  cases hs : pyIsSpace c
  · rfl
  · rw [space_not_alnum c hs] at h
    cases h

theorem takeWhile_all (p : Char → Bool) (l : List Char) :
    (l.takeWhile p).all p = true := by
  rw [List.all_eq_true]
  intro x hx
  exact List.mem_takeWhile_imp hx

/-- Soundness of one anchored match attempt: a successful `matchID`
exhibits the `ID:` prefix, the skipped whitespace, the captured
alphanumeric identifier, and the fact that the capture is maximal. -/
theorem matchID_sound (cs idc : List Char) (h : matchID cs = some idc) :
    ∃ ws rest, cs = 'I' :: 'D' :: ':' :: (ws ++ idc ++ rest) ∧
      ws.all pyIsSpace = true ∧ idc ≠ [] ∧ idc.all pyIsAlnum = true ∧
      (∀ c, rest.head? = some c → pyIsAlnum c = false) := by
  match cs with
  | [] => simp [matchID] at h
  | [c1] => simp [matchID] at h
  | [c1, c2] => simp [matchID] at h
  | c1 :: c2 :: c3 :: rest =>
    simp only [matchID] at h
    by_cases hc : c1 = 'I' ∧ c2 = 'D' ∧ c3 = ':'
    · obtain ⟨rfl, rfl, rfl⟩ := hc
      rw [if_pos ⟨rfl, rfl, rfl⟩] at h
      by_cases hn : (rest.dropWhile pyIsSpace).takeWhile pyIsAlnum = []
      · rw [if_pos hn] at h
        cases h
      · rw [if_neg hn] at h
        have hidc : idc = (rest.dropWhile pyIsSpace).takeWhile pyIsAlnum := by
          injection h with h'
          exact h'.symm
        subst hidc
        refine ⟨rest.takeWhile pyIsSpace,
          (rest.dropWhile pyIsSpace).dropWhile pyIsAlnum, ?_, ?_, hn, ?_, ?_⟩
        · rw [List.append_assoc,
            List.takeWhile_append_dropWhile pyIsAlnum (rest.dropWhile pyIsSpace),
            List.takeWhile_append_dropWhile pyIsSpace rest]
        · exact takeWhile_all pyIsSpace rest
        · exact takeWhile_all pyIsAlnum (rest.dropWhile pyIsSpace)
        · intro c hhead
          have := List.head?_dropWhile_not pyIsAlnum (rest.dropWhile pyIsSpace)
          rw [hhead] at this
          simpa using this
    · rw [if_neg hc] at h
      cases h

/-- Completeness of one anchored match attempt: an `ID:` head followed by
whitespace and a non-empty alphanumeric run matches. -/
theorem matchID_complete (ws idc rest : List Char)
    (hws : ws.all pyIsSpace = true) (hne : idc ≠ [])
    (halnum : idc.all pyIsAlnum = true) :
    (matchID ('I' :: 'D' :: ':' :: (ws ++ idc ++ rest))).isSome = true := by
  obtain ⟨c, idc', rfl⟩ := List.exists_cons_of_ne_nil hne
  rw [List.all_cons, Bool.and_eq_true] at halnum
  have hc : pyIsAlnum c = true := halnum.1
  have hd : ((ws ++ (c :: idc') ++ rest).dropWhile pyIsSpace) = c :: (idc' ++ rest) := by
    rw [List.append_assoc, dropWhile_all_append pyIsSpace ws _ hws]
    simp [List.dropWhile, alnum_not_space c hc]
  have ht : (c :: (idc' ++ rest)).takeWhile pyIsAlnum =
      c :: ((idc' ++ rest).takeWhile pyIsAlnum) := by
    simp [List.takeWhile, hc]
  simp only [matchID]
  rw [hd, ht]
  simp

theorem scanID_cons_true (c : Char) (cs : List Char) :
    scanID true (c :: cs) =
      (match matchID (c :: cs) with
       | some idc => some idc
       | none => scanID (c == '\n') cs) := rfl

theorem scanID_cons_false (c : Char) (cs : List Char) :
    scanID false (c :: cs) = scanID (c == '\n') cs := rfl

/-- Soundness of the MULTILINE scan: a successful scan splits the text at
a line-start position where `matchID` succeeds. -/
theorem scanID_sound (cs : List Char) : ∀ (a0 : Bool) (idc : List Char),
    scanID a0 cs = some idc →
    ∃ pre suf, cs = pre ++ suf ∧ flagAfter a0 pre = true ∧
      matchID suf = some idc := by
  induction cs with
  | nil =>
    intro a0 idc h
    simp [scanID] at h
  | cons c cs ih =>
    intro a0 idc h
    cases a0 with
    | false =>
      rw [scanID_cons_false] at h
      obtain ⟨pre, suf, heq, hflag, hm⟩ := ih (c == '\n') idc h
      exact ⟨c :: pre, suf, by simp [heq], hflag, hm⟩
    | true =>
      rw [scanID_cons_true] at h
      cases hm : matchID (c :: cs) with
      | some idc0 =>
        rw [hm] at h
        obtain rfl : idc0 = idc := by injection h
        exact ⟨[], c :: cs, rfl, rfl, hm⟩
      | none =>
        rw [hm] at h
        obtain ⟨pre, suf, heq, hflag, hmm⟩ := ih (c == '\n') idc h
        exact ⟨c :: pre, suf, by simp [heq], hflag, hmm⟩

/-- Completeness of the MULTILINE scan: if `matchID` succeeds at some
line-start position, the scan succeeds. -/
theorem scanID_complete (pre : List Char) : ∀ (a0 : Bool) (suf : List Char),
    flagAfter a0 pre = true → (matchID suf).isSome = true →
    (scanID a0 (pre ++ suf)).isSome = true := by
  induction pre with
  | nil =>
    intro a0 suf hflag hm
    have ha : a0 = true := hflag
    subst ha
    cases suf with
    | nil => simp [matchID] at hm
    | cons c cs =>
      rw [List.nil_append, scanID_cons_true]
      cases hmm : matchID (c :: cs) with
      | some i => simp
      | none => rw [hmm] at hm; cases hm
  | cons c pre ih =>
    intro a0 suf hflag hm
    have hflag' : flagAfter (c == '\n') pre = true := hflag
    have hrec := ih (c == '\n') suf hflag' hm
    cases a0 with
    | false =>
      rw [List.cons_append, scanID_cons_false]
      exact hrec
    | true =>
      rw [List.cons_append, scanID_cons_true]
      cases hmm : matchID (c :: (pre ++ suf)) with
      | some _ => simp
      | none => simpa using hrec

/-- Claim C7: when the (stripped) vault-tool create output contains an
`ID:` line, the Publisher extracts an identifier genuinely occurring on
such a line — maximal, so it is exactly the line's identifier — and
passes exactly it as the item argument of the share request; when no
such line is present, it fails fatally with the share request never
issued. -/
theorem publisher_id_extraction
    (branch_name lg_key share_to createStdout shareStdout : String) :
    ((∃ idc, idLineAt idc (pyStrip createStdout).data) →
      ∃ idc, findID (pyStrip createStdout) = some idc ∧
        idLineAtFull idc (pyStrip createStdout).data ∧
        create_and_share_item branch_name lg_key share_to createStdout shareStdout =
          (some (pyStrip shareStdout),
           [OpCmd.createItem "LangGraphKeys" branch_name "API Credential" lg_key,
            OpCmd.shareItem (String.mk idc) share_to "7d"])) ∧
    ((∀ idc, ¬ idLineAt idc (pyStrip createStdout).data) →
      create_and_share_item branch_name lg_key share_to createStdout shareStdout =
        (none, [OpCmd.createItem "LangGraphKeys" branch_name "API Credential" lg_key]) ∧
      ∀ cmd ∈ (create_and_share_item branch_name lg_key share_to createStdout shareStdout).2,
        isShareCmd cmd = false) := by
  constructor
  · rintro ⟨idc0, pre, ws, rest, heq, hflag, hws, hne, halnum⟩
    have hm : (matchID ('I' :: 'D' :: ':' :: (ws ++ idc0 ++ rest))).isSome = true :=
      matchID_complete ws idc0 rest hws hne halnum
    have hscan : (scanID true (pyStrip createStdout).data).isSome = true := by
      rw [heq]
      exact scanID_complete pre true _ hflag hm
    obtain ⟨idc, hidc⟩ := Option.isSome_iff_exists.mp hscan
    have hfind : findID (pyStrip createStdout) = some idc := hidc
    refine ⟨idc, hfind, ?_, ?_⟩
    · obtain ⟨pre', suf', heq', hflag', hm'⟩ := scanID_sound _ true idc hidc
      obtain ⟨ws', rest', hsuf, hws', hne', halnum', hmax⟩ := matchID_sound _ _ hm'
      exact ⟨pre', ws', rest', by rw [heq', hsuf], hflag', hws', hne', halnum', hmax⟩
    · simp [create_and_share_item, hfind]
  · intro hno
    have hnone : findID (pyStrip createStdout) = none := by
      cases hf : findID (pyStrip createStdout) with
      | none => rfl
      | some idc =>
        obtain ⟨pre, suf, heq, hflag, hm⟩ := scanID_sound _ true idc hf
        obtain ⟨ws, rest, hsuf, hws, hne, halnum, _⟩ := matchID_sound _ _ hm
        exact absurd ⟨pre, ws, rest, by rw [heq, hsuf], hflag, hws, hne, halnum⟩
          (hno idc)
    constructor
    · simp [create_and_share_item, hnone]
    · intro cmd hcmd
      simp [create_and_share_item, hnone] at hcmd
      simp [hcmd, isShareCmd]

/-- Witness for C7 on a concrete create output holding an `ID:` line. -/
theorem publisher_id_extraction_witness :
    ∃ idc, findID (pyStrip "x\nID: abc123\nrest") = some idc ∧
      idLineAtFull idc (pyStrip "x\nID: abc123\nrest").data ∧
      create_and_share_item "feature-42" "lsv2-secret" "a@x.com"
          "x\nID: abc123\nrest" "https://share.example" =
        (some (pyStrip "https://share.example"),
         [OpCmd.createItem "LangGraphKeys" "feature-42" "API Credential" "lsv2-secret",
          OpCmd.shareItem (String.mk idc) "a@x.com" "7d"]) :=
  (publisher_id_extraction "feature-42" "lsv2-secret" "a@x.com"
      "x\nID: abc123\nrest" "https://share.example").1
    ⟨"abc123".data, ['x', '\n'], [' '], "\nrest".data,
      rfl, rfl, rfl, by decide, by decide⟩

/-- Witness for C10: with the gate passed and the Issuer printing only
whitespace, the Publisher is invoked with the empty string as key. -/
theorem orchestrator_split_nonempty_empty_key_witness :
    stdoutLines "payload" ≠ [] ∧
    Step.publisher "feature-42" "" "a@x.com" ∈
      (mainRun worldBlankIssuerEx "a@x.com" "feature-42").2 :=
  orchestrator_split_nonempty_empty_key "payload" worldBlankIssuerEx
    "a@x.com" "feature-42" rfl rfl rfl
